import Mathlib

/-!
Shallow embedding of the real-time upsell offer-selection engine of
`src/integration-bridge/production/upsell-engine-manager.js`.

JavaScript values that may be `undefined` are modelled as `Option`;
JavaScript truthiness (`x || d`, `if (x)`) is modelled explicitly, since a
numeric `0` and the empty string are falsy. Money and priorities are `Int`
(the repository only ever compares and adds them).
-/

set_option linter.unusedVariables false

/-- JavaScript `a || b` on possibly-undefined numbers: `0` and `undefined`
are falsy and fall through to `b`. -/
def jsOrInt (a b : Option Int) : Option Int :=
  match a with
  | some v => if v = 0 then b else some v
  | none => b

/-- JavaScript `a || d` producing a number: `0` and `undefined` give `d`. -/
def jsNum (a : Option Int) (d : Int) : Int :=
  match a with
  | some v => if v = 0 then d else v
  | none => d

/-- JavaScript `a || d` on strings: `undefined` and `""` give `d`. -/
def jsStr (a : Option String) (d : String) : String :=
  match a with
  | some s => if s = "" then d else s
  | none => d

/-- JavaScript truthiness of a possibly-undefined string. -/
def jsTruthyStr (a : Option String) : Bool :=
  match a with
  | some s => s != ""
  | none => false

/-- JavaScript `x > y` where `y` may be `undefined` (comparison with
`undefined` is `NaN`-poisoned and yields `false`). -/
def jsGtOpt (x : Int) (y : Option Int) : Bool :=
  match y with
  | some v => x > v
  | none => false

/-- JavaScript `x < y` with a possibly-undefined right side. -/
def jsLtOpt (x : Int) (y : Option Int) : Bool :=
  match y with
  | some v => x < v
  | none => false

/-- JavaScript `x >= y` with a possibly-undefined right side. -/
def jsGeOpt (x : Int) (y : Option Int) : Bool :=
  match y with
  | some v => x ≥ v
  | none => false

/-- JavaScript `x <= y` with a possibly-undefined right side. -/
def jsLeOpt (x : Int) (y : Option Int) : Bool :=
  match y with
  | some v => x ≤ v
  | none => false

/-- Does the character pattern `sub` occur at the head of `s`? -/
def matchesAt : List Char → List Char → Bool
  | [], _ => true
  | _ :: _, [] => false
  | a :: as, b :: bs => a == b && matchesAt as bs

/-- Does `sub` occur contiguously anywhere in `s`? -/
def containsSub (s sub : List Char) : Bool :=
  match s with
  | [] => sub.isEmpty
  | _ :: rest => matchesAt sub s || containsSub rest sub

/-- JavaScript `s.includes(sub)` on strings. -/
def jsIncludes (s sub : String) : Bool :=
  containsSub s.data sub.data

/-- JavaScript `s.toLowerCase()` (ASCII-adequate for the keyword table). -/
def jsToLower (s : String) : String :=
  String.mk (s.data.map Char.toLower)

/-- One cart line item as received by `evaluateUpsells`. -/
structure CartItem where
  product_id : String
  title : String
  price : Int
  quantity : Int
deriving DecidableEq

/-- The session time context passed to `evaluateUpsells` (fields optional,
the source defaults them with `|| 0`). -/
structure TimeContext where
  timeOnSite : Option Int := none
  activeTimeOnSite : Option Int := none
deriving DecidableEq

/-- The shape-shifting `trigger_conditions` object of a rule: one record
with optional fields, used by the per-`trigger_type` evaluators. -/
structure TriggerConditions where
  category : Option String := none
  category_operator : Option String := none
  cart_value_operator : Option String := none
  cart_value : Option Int := none
  cart_value_min : Option Int := none
  cart_value_max : Option Int := none
  time_on_site_min : Option Int := none
  time_on_site_max : Option Int := none
  active_time_on_site_min : Option Int := none
deriving DecidableEq

/-- An upsell rule row (columns of `upsell_rules` used by the engine,
with `target_products` resolved as in `getActiveRules`). -/
structure Rule where
  id : String
  name : String := ""
  description : String := ""
  status : String := "active"
  is_active : Bool := true
  trigger_type : String
  trigger_conditions : TriggerConditions := {}
  priority : Int := 0
  target_products : List String := []
  display_type : Option String := none
deriving DecidableEq

/-- The `enhanced_settings` payload of an `enhance` override. -/
structure EnhancedSettings where
  priority_boost : Option Int := none
deriving DecidableEq

/-- One entry of a campaign's `rule_overrides` array. -/
structure RuleOverride where
  rule_id : String
  override_type : String
  enhanced_settings : Option EnhancedSettings := none
deriving DecidableEq

/-- A campaign row (columns of `campaigns` used by the engine, with
trigger / upsell products resolved as in `getActiveCampaigns`). -/
structure Campaign where
  id : String
  name : String := ""
  description : String := ""
  status : String := "active"
  start_date : Option Int := none
  end_date : Option Int := none
  campaign_priority : Option Int := none
  override_existing_rules : Bool := false
  rule_overrides : Option (List RuleOverride) := none
  trigger_products : List String := []
  upsell_products : List String := []
  display_type : Option String := none
deriving DecidableEq

/-- The offer object returned by `selectBestUpsell`. -/
structure Offer where
  type : String
  id : String
  title : String
  description : String
  target_products : List String
  display_type : String
deriving DecidableEq

/-- The tagged data of a candidate built in `selectBestUpsell`. -/
inductive OfferData where
  | rule : Rule → OfferData
  | campaign : Campaign → OfferData
deriving DecidableEq

/-- A candidate as built in step 1 of `selectBestUpsell`:
`{type, data, priority}`. -/
structure Candidate where
  data : OfferData
  priority : Int
deriving DecidableEq

/-- Source expression `cartItems.reduce((sum, item) => sum + item.price * item.quantity, 0)`. -/
def cartTotal (cartItems : List CartItem) : Int :=
  cartItems.foldl (fun sum item => sum + item.price * item.quantity) 0

/-- The hardcoded keyword→category table of `extractCategory`. -/
def categoryKeywords : List (String × List String) :=
  [("coffee", ["coffee", "mug", "beans", "grinder"]),
   ("electronics", ["headphones", "speaker", "wireless", "bluetooth"]),
   ("kitchenware", ["mug", "grinder", "kitchen"]),
   ("food", ["beans", "organic"])]

/-- Source function `extractCategory(title)`: first table entry one of whose keywords occurs
in the lowercased title, else `"general"`. -/
def extractCategory (title : String) : String :=
  let lowerTitle := jsToLower title
  match categoryKeywords.find? (fun e => e.2.any (fun kw => jsIncludes lowerTitle kw)) with
  | some e => e.1
  | none => "general"

/-- Source function `evaluateCategoryConditions(conditions, cartItems)`. -/
def evaluateCategoryConditions (conditions : TriggerConditions) (cartItems : List CartItem) : Bool :=
  if !jsTruthyStr conditions.category then false
  else
    let category := conditions.category.getD ""
    let category_operator := conditions.category_operator.getD "contains"
    let cartCategories := cartItems.map (fun item => extractCategory item.title)
    match category_operator with
    | "contains" => cartCategories.any (fun cat => cat == category)
    | "equals" => cartCategories.all (fun cat => cat == category)
    | "not_contains" => !(cartCategories.any (fun cat => cat == category))
    | _ => false

/-- Source function `evaluateCartValueConditions(conditions, cartItems)`. -/
def evaluateCartValueConditions (conditions : TriggerConditions) (cartItems : List CartItem) : Bool :=
  match conditions.cart_value_operator with
  | some "greater_than" =>
      jsGtOpt (cartTotal cartItems) (jsOrInt conditions.cart_value conditions.cart_value_min)
  | some "less_than" =>
      jsLtOpt (cartTotal cartItems) (jsOrInt conditions.cart_value conditions.cart_value_max)
  | some "equals" =>
      match conditions.cart_value with
      | some v => cartTotal cartItems == v
      | none => false
  | some "between" =>
      jsGeOpt (cartTotal cartItems) conditions.cart_value_min &&
      jsLeOpt (cartTotal cartItems) conditions.cart_value_max
  | _ => false

/-- Source function `evaluateTimeConditions(conditions, timeContext)`: each guard fires only
when the threshold is truthy (present and nonzero). -/
def evaluateTimeConditions (conditions : TriggerConditions) (timeContext : TimeContext) : Bool :=
  let timeOnSite := jsNum timeContext.timeOnSite 0
  let activeTimeOnSite := jsNum timeContext.activeTimeOnSite 0
  if (match conditions.time_on_site_min with
      | some v => v != 0 && timeOnSite < v
      | none => false) then false
  else if (match conditions.time_on_site_max with
      | some v => v != 0 && timeOnSite > v
      | none => false) then false
  else if (match conditions.active_time_on_site_min with
      | some v => v != 0 && activeTimeOnSite < v
      | none => false) then false
  else true

/-- Source function `evaluateRules(rules, cartItems, timeContext)`: dispatch on
`trigger_type`, unknown types never match. -/
def evaluateRules (rules : List Rule) (cartItems : List CartItem) (timeContext : TimeContext) : List Rule :=
  rules.filter fun rule =>
    match rule.trigger_type with
    | "category" => evaluateCategoryConditions rule.trigger_conditions cartItems
    | "cart_value" => evaluateCartValueConditions rule.trigger_conditions cartItems
    | "time_based" => evaluateTimeConditions rule.trigger_conditions timeContext
    | _ => false

/-- Source function `evaluateCampaigns(campaigns, cartItems, timeContext)`: keep a campaign
when some trigger product is in the cart (the `target_audience` branch of
the source is a no-op). -/
def evaluateCampaigns (campaigns : List Campaign) (cartItems : List CartItem) (timeContext : TimeContext) : List Campaign :=
  campaigns.filter fun campaign =>
    campaign.trigger_products.any fun triggerId =>
      cartItems.any fun item => item.product_id == triggerId

/-- Source expression `override.enhanced_settings?.priority_boost || 0`. -/
def overrideBoost (o : RuleOverride) : Int :=
  jsNum (o.enhanced_settings.bind (fun s => s.priority_boost)) 0

/-- Apply one override entry to the candidate rule list: locate the first
rule with the override's `rule_id` (`findIndex`); `enhance` rebuilds that
rule with a boosted priority, `suppress` splices it out, other types are
no-ops, as is a missing rule id. -/
def applyOverride (o : RuleOverride) : List Rule → List Rule
  | [] => []
  | r :: rs =>
      if r.id == o.rule_id then
        if o.override_type == "enhance" then
          { r with priority := r.priority + overrideBoost o } :: rs
        else if o.override_type == "suppress" then rs
        else r :: rs
      else r :: applyOverride o rs

/-- The inner `forEach` of `applyRuleOverrides`: one campaign's override
entries applied in array order. -/
def applyOverridesList (rules : List Rule) (ovs : List RuleOverride) : List Rule :=
  ovs.foldl (fun a o => applyOverride o a) rules

/-- Source function `applyRuleOverrides(rules, campaigns)`: for each campaign in matched
order, for each of its overrides in array order, apply the override. A
campaign with no `rule_overrides` field contributes nothing. -/
def applyRuleOverrides (rules : List Rule) (campaigns : List Campaign) : List Rule :=
  campaigns.foldl
    (fun acc campaign => applyOverridesList acc (campaign.rule_overrides.getD []))
    rules

/-- Candidate built from a campaign: priority `campaign_priority || 0`. -/
def candOfCampaign (c : Campaign) : Candidate :=
  { data := OfferData.campaign c, priority := jsNum c.campaign_priority 0 }

/-- Candidate built from a rule: priority `rule.priority || 0` (the
`priority` column is a non-null integer, so this is just the priority). -/
def candOfRule (r : Rule) : Candidate :=
  { data := OfferData.rule r, priority := r.priority }

/-- Stable descending insertion: a candidate goes before the first existing
element whose priority is not larger, so equal priorities keep insertion
order — the behaviour of the (stable) JavaScript
`sort((a, b) => b.priority - a.priority)`. -/
def insertByPriority (c : Candidate) : List Candidate → List Candidate
  | [] => [c]
  | x :: xs => if c.priority ≥ x.priority then c :: x :: xs else x :: insertByPriority c xs

/-- Stable sort of the candidate list by descending priority. -/
def sortCandidates : List Candidate → List Candidate
  | [] => []
  | c :: cs => insertByPriority c (sortCandidates cs)

/-- Materialise the winning candidate as an `Offer`
(`target_products || upsell_products`, `display_type || 'popup'`). -/
def offerOf : Candidate → Offer
  | { data := OfferData.campaign c, .. } =>
      { type := "campaign", id := c.id, title := c.name, description := c.description,
        target_products := c.upsell_products, display_type := jsStr c.display_type "popup" }
  | { data := OfferData.rule r, .. } =>
      { type := "rule", id := r.id, title := r.name, description := r.description,
        target_products := r.target_products, display_type := jsStr r.display_type "popup" }

/-- Source function `selectBestUpsell(campaigns, rules, cartItems)`: build the candidate
list with campaigns first, then rules; sort by descending priority; return
the top candidate as an offer, or `null` when there is none. -/
def selectBestUpsell (campaigns : List Campaign) (rules : List Rule) (cartItems : List CartItem) : Option Offer :=
  let allOffers := campaigns.map candOfCampaign ++ rules.map candOfRule
  match sortCandidates allOffers with
  | [] => none
  | best :: _ => some (offerOf best)

/-- The pure evaluation pipeline of `evaluateUpsells` after the store
reads: match campaigns, match rules, apply overrides, select. -/
def evaluatePipeline (activeRules : List Rule) (activeCampaigns : List Campaign)
    (cartItems : List CartItem) (timeContext : TimeContext) : Option Offer :=
  let matchingCampaigns := evaluateCampaigns activeCampaigns cartItems timeContext
  let matchingRules := evaluateRules activeRules cartItems timeContext
  let overriddenRules := applyRuleOverrides matchingRules matchingCampaigns
  selectBestUpsell matchingCampaigns overriddenRules cartItems

/-- Source function `getActiveRules`: the store read with its surrounding `try/catch` —
any read failure is caught, logged, and turned into an empty list. -/
def getActiveRules (storeRead : Except String (List Rule)) : List Rule :=
  match storeRead with
  | Except.ok rules => rules
  | Except.error _ => []

/-- Source function `getActiveCampaigns`: same catch-all shape as `getActiveRules`. -/
def getActiveCampaigns (storeRead : Except String (List Campaign)) : List Campaign :=
  match storeRead with
  | Except.ok campaigns => campaigns
  | Except.error _ => []

/-- Source function `evaluateUpsells` with the two store reads as explicit inputs. The
body's `try/catch` rethrows, but every step after the (self-catching)
reads is pure and the tracking write catches its own failures, so the
result is always `ok`. -/
def evaluateUpsells (rulesRead : Except String (List Rule))
    (campaignsRead : Except String (List Campaign))
    (cartItems : List CartItem) (timeContext : TimeContext) : Except String (Option Offer) :=
  let activeRules := getActiveRules rulesRead
  let activeCampaigns := getActiveCampaigns campaignsRead
  Except.ok (evaluatePipeline activeRules activeCampaigns cartItems timeContext)

/-- A row of `upsell_evaluations` as written by `trackUpsellEvaluation`. -/
structure UpsellEvaluation where
  session_id : String
  cart_items : List CartItem
  offer_id : Option String
  offer_type : Option String
deriving DecidableEq

/-- The backing store visible to one engine call: the rule and campaign
tables it reads and the evaluation log it appends to. -/
structure EngineState where
  upsell_rules : List Rule
  campaigns : List Campaign
  upsell_evaluations : List UpsellEvaluation
deriving DecidableEq

/-- One full `evaluateUpsells` call against a healthy store: read the
active rows (the `.eq` filters of the two queries), run the pipeline,
append the tracking row, and return the offer with the new store state. -/
def evaluateUpsellsCall (st : EngineState) (cartItems : List CartItem)
    (sessionId : String) (timeContext : TimeContext) : Option Offer × EngineState :=
  let activeRules := st.upsell_rules.filter (fun r => r.is_active && r.status == "active")
  let activeCampaigns := st.campaigns.filter (fun c => c.status == "active")
  let bestOffer := evaluatePipeline activeRules activeCampaigns cartItems timeContext
  let row : UpsellEvaluation :=
    { session_id := sessionId, cart_items := cartItems,
      offer_id := bestOffer.map (fun o => o.id), offer_type := bestOffer.map (fun o => o.type) }
  (bestOffer, { st with upsell_evaluations := st.upsell_evaluations ++ [row] })

/-- The campaign-match predicate exactly as the specification words it:
status active, evaluation time inside `[start_date, end_date or +∞)`, and
a trigger product present in the cart. Written from the spec to compare
against the source's `evaluateCampaigns`. -/
def campaignSpecClaimed (now : Int) (cartItems : List CartItem) (c : Campaign) : Bool :=
  c.status == "active" &&
  (match c.start_date with | some s => decide (s ≤ now) | none => true) &&
  (match c.end_date with | some e => decide (now ≤ e) | none => true) &&
  c.trigger_products.any (fun p => cartItems.any (fun item => item.product_id == p))

/-- Value `a` if present — including a present `0` — else `b`: the fallback the
specification claims for the cart-value comparisons. -/
def presentOr (a b : Option Int) : Option Int :=
  match a with
  | some v => some v
  | none => b

/-- The cart-value evaluator exactly as the specification words it, where
a present `cart_value` of `0` still takes precedence over the min/max
fallback. Written from the spec to compare against the source. -/
def cartValueSpecClaimed (conditions : TriggerConditions) (total : Int) : Bool :=
  match conditions.cart_value_operator with
  | some "greater_than" => jsGtOpt total (presentOr conditions.cart_value conditions.cart_value_min)
  | some "less_than" => jsLtOpt total (presentOr conditions.cart_value conditions.cart_value_max)
  | some "equals" =>
      match conditions.cart_value with
      | some v => total == v
      | none => false
  | some "between" =>
      jsGeOpt total conditions.cart_value_min && jsLeOpt total conditions.cart_value_max
  | _ => false

/-- The time evaluator exactly as the specification words it: every
threshold present in the condition — including a present `0` — must hold.
Written from the spec to compare against the source. -/
def timeSpecClaimed (conditions : TriggerConditions) (t : TimeContext) : Bool :=
  let timeOnSite := jsNum t.timeOnSite 0
  let activeTimeOnSite := jsNum t.activeTimeOnSite 0
  (match conditions.time_on_site_min with | some v => decide (timeOnSite ≥ v) | none => true) &&
  (match conditions.time_on_site_max with | some v => decide (timeOnSite ≤ v) | none => true) &&
  (match conditions.active_time_on_site_min with | some v => decide (activeTimeOnSite ≥ v) | none => true)

/-- The time evaluator as amended: only thresholds that are present AND
nonzero are enforced (a `0` value is falsy in the source's guards). -/
def timeSpecAmended (conditions : TriggerConditions) (t : TimeContext) : Bool :=
  let timeOnSite := jsNum t.timeOnSite 0
  let activeTimeOnSite := jsNum t.activeTimeOnSite 0
  (match conditions.time_on_site_min with
   | some v => v == 0 || decide (timeOnSite ≥ v)
   | none => true) &&
  (match conditions.time_on_site_max with
   | some v => v == 0 || decide (timeOnSite ≤ v)
   | none => true) &&
  (match conditions.active_time_on_site_min with
   | some v => v == 0 || decide (activeTimeOnSite ≥ v)
   | none => true)

/-- A cart holding two units of product `P1`, titled so that
`extractCategory` sees `"coffee"`; total `60`. -/
def demoCartP1 : List CartItem :=
  [{ product_id := "P1", title := "Coffee Mug", price := 30, quantity := 2 }]

/-- An empty time context (all fields defaulted by `|| 0`). -/
def demoTime : TimeContext := {}

/-- A matching cart-value rule with numeric priority `100`. -/
def highPriorityRule : Rule :=
  { id := "R-100", name := "High priority rule", trigger_type := "cart_value",
    trigger_conditions := { cart_value_operator := some "greater_than", cart_value_min := some 50 },
    priority := 100 }

/-- A matching campaign with `override_existing_rules = true` but a low
numeric `campaign_priority` of `10`. -/
def overrideCampaign : Campaign :=
  { id := "C-OVR", name := "Override campaign", trigger_products := ["P1"],
    override_existing_rules := true, campaign_priority := some 10 }

/-- An `active` campaign whose date window `[0, 100]` is already over at
evaluation time `200`, with a trigger product in the demo cart. -/
def expiredCampaign : Campaign :=
  { id := "C-EXP", name := "Expired campaign", status := "active",
    start_date := some 0, end_date := some 100,
    trigger_products := ["P1"], campaign_priority := some 5 }

/-- A rule of priority `60` that a campaign override suppresses. -/
def suppressedRule : Rule :=
  { id := "R-SUP", name := "Suppressed rule", trigger_type := "cart_value",
    trigger_conditions := { cart_value_operator := some "greater_than", cart_value_min := some 50 },
    priority := 60 }

/-- The suppress override entry targeting `suppressedRule`. -/
def suppressOverride : RuleOverride :=
  { rule_id := "R-SUP", override_type := "suppress" }

/-- An enhance override on the same rule id, listed after the suppress. -/
def lateEnhanceOverride : RuleOverride :=
  { rule_id := "R-SUP", override_type := "enhance",
    enhanced_settings := some { priority_boost := some 50 } }

/-- A campaign that suppresses `suppressedRule` and then tries to enhance
it. -/
def suppressingCampaign : Campaign :=
  { id := "C-SUP", name := "Suppressing campaign", trigger_products := ["P1"],
    rule_overrides := some [suppressOverride, lateEnhanceOverride] }

/-- A rule with priority `50` for the tie-break scenario. -/
def tieRule : Rule :=
  { id := "R-TIE", name := "Tie rule", trigger_type := "cart_value",
    trigger_conditions := { cart_value_operator := some "greater_than", cart_value_min := some 50 },
    priority := 50 }

/-- A campaign with `campaign_priority` equal to `tieRule`'s priority. -/
def tieCampaign : Campaign :=
  { id := "C-TIE", name := "Tie campaign", trigger_products := ["P1"],
    campaign_priority := some 50 }

/-- Cart-value conditions with a present `cart_value` of `0`: the claimed
reading compares against `0`, the source falls through to the min. -/
def zeroCartValueConds : TriggerConditions :=
  { cart_value_operator := some "greater_than", cart_value := some 0, cart_value_min := some 50 }

/-- A one-item cart with total `10`. -/
def smallCart : List CartItem :=
  [{ product_id := "P9", title := "Widget", price := 10, quantity := 1 }]

/-- A `less_than` condition carrying `cart_value_min = 10 > 0`. -/
def lessThanConds : TriggerConditions :=
  { cart_value_operator := some "less_than", cart_value_min := some 10, cart_value_max := some 50 }

/-- A `greater_than` condition with `cart_value_min = 50` and no
`cart_value`. -/
def greaterThanConds : TriggerConditions :=
  { cart_value_operator := some "greater_than", cart_value_min := some 50 }

/-- A time condition whose only threshold is `time_on_site_max = 0`. -/
def zeroMaxConds : TriggerConditions :=
  { time_on_site_max := some 0 }

/-- A context with 100 seconds on site. -/
def longVisit : TimeContext := { timeOnSite := some 100 }

/-- Category conditions with category `"coffee"` and no operator. -/
def coffeeConds : TriggerConditions := { category := some "coffee" }

/-- A `greater_than` condition with a nonzero `cart_value` of `5`. -/
def fiveCartValueConds : TriggerConditions :=
  { cart_value_operator := some "greater_than", cart_value := some 5 }

theorem evaluatePipeline_def (activeRules : List Rule) (activeCampaigns : List Campaign)
    (cartItems : List CartItem) (t : TimeContext) :
    evaluatePipeline activeRules activeCampaigns cartItems t =
      selectBestUpsell (evaluateCampaigns activeCampaigns cartItems t)
        (applyRuleOverrides (evaluateRules activeRules cartItems t)
          (evaluateCampaigns activeCampaigns cartItems t)) cartItems := rfl

/-- C1: the specification says a campaign with `override_existing_rules =
true` always outranks every plain rule; the source's `selectBestUpsell`
never reads that flag and ranks purely by numeric priority, so the
priority-100 rule beats the override campaign of priority 10. -/
theorem c1_override_flag_ignored :
    overrideCampaign.override_existing_rules = true ∧
    highPriorityRule.priority = 100 ∧
    (evaluatePipeline [highPriorityRule] [overrideCampaign] demoCartP1 demoTime).map Offer.type
      = some "rule" := by
  decide

/-- C2: the specification says a campaign matches only when the evaluation
time lies in its date window; the source's `evaluateCampaigns` never reads
`status`, `start_date` or `end_date`, so an `active` campaign whose window
`[0, 100]` is over at time `200` is still kept as a candidate. -/
theorem c2_expired_campaign_kept :
    expiredCampaign.status = "active" ∧
    expiredCampaign.end_date = some 100 ∧
    expiredCampaign ∈ evaluateCampaigns [expiredCampaign] demoCartP1 demoTime ∧
    campaignSpecClaimed 200 demoCartP1 expiredCampaign = false := by
  decide

/-- C4: one full `evaluateUpsellsCall` only appends a tracking row to the
store; the rule and campaign tables are untouched, so a second call on the
post-call state — same cart, session and time context — returns the
identical offer (ties included, since the whole pipeline is one function
of the read tables and the inputs). -/
theorem c4_evaluate_twice_same_offer (st : EngineState) (cartItems : List CartItem)
    (sessionId : String) (t : TimeContext) :
    (evaluateUpsellsCall (evaluateUpsellsCall st cartItems sessionId t).2 cartItems sessionId t).1
      = (evaluateUpsellsCall st cartItems sessionId t).1 := rfl

/-- C5 counterexample: with both store reads failing, `evaluateUpsells`
returns a successful `none` instead of propagating an error — the claim
that read failures surface as a hard failure is false on the source. -/
theorem c5_store_failure_swallowed :
    evaluateUpsells (Except.error "store unavailable") (Except.error "store unavailable")
      demoCartP1 demoTime = Except.ok none := rfl

/-- C5 amended: `evaluateUpsells` always succeeds — each store read
catches its own failure and degrades to an empty list, and the rest of the
pipeline is pure, so the caller sees `ok` of the pipeline run on whatever
(possibly empty) data the reads produced. -/
theorem c5_read_failures_degrade_to_empty :
    (∀ (rulesRead : Except String (List Rule)) (campaignsRead : Except String (List Campaign))
       (cartItems : List CartItem) (t : TimeContext),
       evaluateUpsells rulesRead campaignsRead cartItems t =
         Except.ok (evaluatePipeline (getActiveRules rulesRead)
           (getActiveCampaigns campaignsRead) cartItems t)) ∧
    (∀ e : String, getActiveRules (Except.error e) = []) ∧
    (∀ e : String, getActiveCampaigns (Except.error e) = []) :=
  ⟨fun _ _ _ _ => rfl, fun _ => rfl, fun _ => rfl⟩

/-- C6 counterexample: with a rule and a campaign of equal priority `50`,
the selected offer is the campaign, not the rule — the source inserts
campaigns before rules in the candidate list, so the claimed
rules-before-campaigns tie-break is false. -/
theorem c6_tie_goes_to_campaign :
    jsNum tieCampaign.campaign_priority 0 = tieRule.priority ∧
    (selectBestUpsell [tieCampaign] [tieRule] demoCartP1).map Offer.type = some "campaign" := by
  decide

theorem applyOverride_ids_sublist (o : RuleOverride) :
    ∀ l : List Rule, ((applyOverride o l).map Rule.id).Sublist (l.map Rule.id) := by
  intro l
  induction l with
  | nil => simp [applyOverride]
  | cons r rs ih =>
    by_cases h : (r.id == o.rule_id) = true
    · by_cases he : (o.override_type == "enhance") = true
      · simp [applyOverride, h, he]
      · by_cases hs : (o.override_type == "suppress") = true
        · simp [applyOverride, h, he, hs]
        · simp [applyOverride, h, he, hs]
    · simpa [applyOverride, h] using ih.cons₂ r.id

theorem applyOverride_not_mem (o : RuleOverride) (rid : String) (l : List Rule)
    (h : rid ∉ l.map Rule.id) : rid ∉ (applyOverride o l).map Rule.id :=
  fun hm => h ((applyOverride_ids_sublist o l).subset hm)

theorem applyOverride_suppress_not_mem (o : RuleOverride)
    (hsup : o.override_type = "suppress") :
    ∀ l : List Rule, (l.map Rule.id).Nodup → o.rule_id ∉ (applyOverride o l).map Rule.id := by
  intro l
  induction l with
  | nil => simp [applyOverride]
  | cons r rs ih =>
    intro hnd
    by_cases h : (r.id == o.rule_id) = true
    · have hid : r.id = o.rule_id := by simpa using h
      have : (applyOverride o (r :: rs)) = rs := by
        simp [applyOverride, h, hsup]
      rw [this, ← hid]
      exact (List.nodup_cons.mp (by simpa using hnd)).1
    · have hne : r.id ≠ o.rule_id := by simpa using h
      have : (applyOverride o (r :: rs)) = r :: applyOverride o rs := by
        simp [applyOverride, h]
      rw [this, List.map_cons]
      intro hm
      rcases List.mem_cons.mp hm with heq | hmem
      · exact hne heq.symm
      · exact ih (List.nodup_cons.mp (by simpa using hnd)).2 hmem

theorem applyOverridesList_ids_sublist (ovs : List RuleOverride) :
    ∀ l : List Rule, ((applyOverridesList l ovs).map Rule.id).Sublist (l.map Rule.id) := by
  induction ovs with
  | nil => intro l; exact List.Sublist.refl _
  | cons o os ih =>
    intro l
    exact (ih (applyOverride o l)).trans (applyOverride_ids_sublist o l)

theorem applyOverridesList_suppress (rid : String) :
    ∀ (ovs : List RuleOverride) (l : List Rule),
      (∃ o ∈ ovs, o.override_type = "suppress" ∧ o.rule_id = rid) →
      (l.map Rule.id).Nodup → rid ∉ (applyOverridesList l ovs).map Rule.id := by
  intro ovs
  induction ovs with
  | nil =>
    intro l h _
    rcases h with ⟨o, ho, _⟩
    simp at ho
  | cons o os ih =>
    intro l h hnd
    rcases h with ⟨o', ho', hs', hr'⟩
    rcases List.mem_cons.mp ho' with h1 | hmem
    · subst h1
      have hnotm : rid ∉ (applyOverride o' l).map Rule.id := by
        rw [← hr']
        exact applyOverride_suppress_not_mem o' hs' l hnd
      exact fun hm => hnotm ((applyOverridesList_ids_sublist os (applyOverride o' l)).subset hm)
    · exact ih (applyOverride o l) ⟨o', hmem, hs', hr'⟩
        (List.Nodup.sublist (applyOverride_ids_sublist o l) hnd)

theorem applyRuleOverrides_ids_sublist (campaigns : List Campaign) :
    ∀ rules : List Rule,
      ((applyRuleOverrides rules campaigns).map Rule.id).Sublist (rules.map Rule.id) := by
  induction campaigns with
  | nil => intro rules; exact List.Sublist.refl _
  | cons c cs ih =>
    intro rules
    exact (ih (applyOverridesList rules (c.rule_overrides.getD []))).trans
      (applyOverridesList_ids_sublist _ rules)

theorem applyRuleOverrides_suppress_not_mem (rid : String) :
    ∀ (campaigns : List Campaign) (rules : List Rule),
      (∃ c ∈ campaigns, ∃ o ∈ c.rule_overrides.getD [],
        o.override_type = "suppress" ∧ o.rule_id = rid) →
      (rules.map Rule.id).Nodup → rid ∉ (applyRuleOverrides rules campaigns).map Rule.id := by
  intro campaigns
  induction campaigns with
  | nil =>
    intro rules h _
    rcases h with ⟨c, hc, _⟩
    simp at hc
  | cons c cs ih =>
    intro rules h hnd
    rcases h with ⟨c', hc', o, ho, hs, hr⟩
    rcases List.mem_cons.mp hc' with h1 | hmem
    · subst h1
      have h2 : rid ∉ (applyOverridesList rules (c'.rule_overrides.getD [])).map Rule.id :=
        applyOverridesList_suppress rid (c'.rule_overrides.getD []) rules ⟨o, ho, hs, hr⟩ hnd
      exact fun hm => h2 ((applyRuleOverrides_ids_sublist cs _).subset hm)
    · exact ih (applyOverridesList rules (c.rule_overrides.getD []))
        ⟨c', hmem, o, ho, hs, hr⟩
        (List.Nodup.sublist (applyOverridesList_ids_sublist _ rules) hnd)

/-- C3: when rule ids are distinct (they are primary keys), a rule
targeted by a `suppress` override of any matched campaign is spliced out
by `applyRuleOverrides` and never reappears — later overrides, including
an `enhance` naming the same rule, find no index and are no-ops — so no
rule with that id is in the resolved list, whatever its priority was. -/
theorem c3_suppressed_rule_absent (rules : List Rule) (campaigns : List Campaign) (rid : String)
    (hnd : (rules.map Rule.id).Nodup)
    (hsup : ∃ c ∈ campaigns, ∃ o ∈ c.rule_overrides.getD [],
      o.override_type = "suppress" ∧ o.rule_id = rid) :
    ∀ r ∈ applyRuleOverrides rules campaigns, r.id ≠ rid := by
  intro r hr hid
  exact applyRuleOverrides_suppress_not_mem rid campaigns rules hsup hnd
    (List.mem_map.mpr ⟨r, hr, hid⟩)

/-- C3 witness: the priority-60 rule `R-SUP` is suppressed by
`suppressingCampaign` (whose override list also tries a later enhance on
the same id), so every rule in the resolved list has a different id. -/
theorem c3_witness :
    ((applyRuleOverrides [suppressedRule] [suppressingCampaign]).all
      (fun r => r.id != "R-SUP")) = true := by
  have h := c3_suppressed_rule_absent [suppressedRule] [suppressingCampaign] "R-SUP"
    (by decide)
    ⟨suppressingCampaign, by decide, suppressOverride, by decide, rfl, rfl⟩
  rw [List.all_eq_true]
  intro r hrm
  simpa using h r hrm

/-- C6 amended: the candidate list is built with campaigns inserted before
rules, and the stable descending sort keeps the earlier-inserted candidate
in front on equal priority — so whenever the rule's priority does not
exceed the campaign's, the campaign is the selected offer. -/
theorem c6_campaign_wins_ties (c : Campaign) (r : Rule) (cart : List CartItem)
    (h : r.priority ≤ jsNum c.campaign_priority 0) :
    selectBestUpsell [c] [r] cart = some (offerOf (candOfCampaign c)) := by
  have hge : (candOfCampaign c).priority ≥ (candOfRule r).priority := h
  have hsort : sortCandidates ([c].map candOfCampaign ++ [r].map candOfRule)
      = [candOfCampaign c, candOfRule r] := by
    simp only [List.map_cons, List.map_nil, List.cons_append, List.nil_append,
      sortCandidates, insertByPriority]
    rw [if_pos hge]
  show (match sortCandidates (List.map candOfCampaign [c] ++ List.map candOfRule [r]) with
        | [] => none
        | best :: tail => some (offerOf best)) = some (offerOf (candOfCampaign c))
  rw [hsort]

/-- C6 witness: the campaign and rule tie at priority 50, and the campaign
is selected. -/
theorem c6_witness :
    selectBestUpsell [tieCampaign] [tieRule] demoCartP1 = some (offerOf (candOfCampaign tieCampaign)) :=
  c6_campaign_wins_ties tieCampaign tieRule demoCartP1 (by decide)

theorem jsGtOpt_iff (x : Int) (y : Option Int) :
    jsGtOpt x y = true ↔ ∃ v, y = some v ∧ v < x := by
  cases y <;> simp [jsGtOpt]

theorem jsLtOpt_iff (x : Int) (y : Option Int) :
    jsLtOpt x y = true ↔ ∃ v, y = some v ∧ x < v := by
  cases y <;> simp [jsLtOpt]

theorem jsGeOpt_iff (x : Int) (y : Option Int) :
    jsGeOpt x y = true ↔ ∃ v, y = some v ∧ v ≤ x := by
  cases y <;> simp [jsGeOpt]

theorem jsLeOpt_iff (x : Int) (y : Option Int) :
    jsLeOpt x y = true ↔ ∃ v, y = some v ∧ x ≤ v := by
  cases y <;> simp [jsLeOpt]

/-- C7 counterexample: with `cart_value = 0` "present" and
`cart_value_min = 50`, the claimed reading of `greater_than` compares the
total `10` against `0` and matches, but the source's `||` fallback treats
the `0` as absent and compares against `50`, so the evaluator returns
false — "present including 0" is wrong. -/
theorem c7_zero_cart_value_falls_through :
    evaluateCartValueConditions zeroCartValueConds smallCart = false ∧
    cartValueSpecClaimed zeroCartValueConds (cartTotal smallCart) = true := by
  decide

/-- C7 amended: the cart-value evaluator's semantics per operator, with
the `||` fallback — a `cart_value` of `0` falls through to the min/max
bound — and comparisons against an absent bound failing; `equals` compares
`cart_value` itself (a present `0` does count there); unknown or missing
operators never match. -/
theorem c7_cart_value_semantics (conds : TriggerConditions) (items : List CartItem) :
    (conds.cart_value_operator = some "greater_than" →
      (evaluateCartValueConditions conds items = true ↔
        ∃ v, jsOrInt conds.cart_value conds.cart_value_min = some v ∧ v < cartTotal items)) ∧
    (conds.cart_value_operator = some "less_than" →
      (evaluateCartValueConditions conds items = true ↔
        ∃ v, jsOrInt conds.cart_value conds.cart_value_max = some v ∧ cartTotal items < v)) ∧
    (conds.cart_value_operator = some "equals" →
      (evaluateCartValueConditions conds items = true ↔
        conds.cart_value = some (cartTotal items))) ∧
    (conds.cart_value_operator = some "between" →
      (evaluateCartValueConditions conds items = true ↔
        (∃ lo, conds.cart_value_min = some lo ∧ lo ≤ cartTotal items) ∧
        (∃ hi, conds.cart_value_max = some hi ∧ cartTotal items ≤ hi))) ∧
    (∀ op, conds.cart_value_operator = some op →
      op ≠ "greater_than" → op ≠ "less_than" → op ≠ "equals" → op ≠ "between" →
      evaluateCartValueConditions conds items = false) ∧
    (conds.cart_value_operator = none → evaluateCartValueConditions conds items = false) := by
  refine ⟨?_, ?_, ?_, ?_, ?_, ?_⟩
  · intro hop
    unfold evaluateCartValueConditions
    rw [hop]
    exact jsGtOpt_iff _ _
  · intro hop
    unfold evaluateCartValueConditions
    rw [hop]
    exact jsLtOpt_iff _ _
  · intro hop
    unfold evaluateCartValueConditions
    rw [hop]
    cases hcv : conds.cart_value <;> simp [hcv]
    omega
  · intro hop
    unfold evaluateCartValueConditions
    rw [hop]
    simp [jsGeOpt_iff, jsLeOpt_iff]
  · intro op hop h1 h2 h3 h4
    unfold evaluateCartValueConditions
    rw [hop]
    split <;> simp_all
  · intro hop
    unfold evaluateCartValueConditions
    rw [hop]

/-- C7 witness: a present nonzero `cart_value` of `5` is the bound for
`greater_than`, and the total `10` exceeds it. -/
theorem c7_witness :
    evaluateCartValueConditions fiveCartValueConds smallCart = true :=
  ((c7_cart_value_semantics fiveCartValueConds smallCart).1 rfl).mpr ⟨5, by decide, by decide⟩

/-- C8 counterexample: the empty cart (total `0`) matches a `less_than`
rule that carries `cart_value_min = 10 > 0`, because `less_than` compares
against `cart_value_max = 50` — so "rules with `cart_value_min > 0` never
match the empty cart, whatever the operator" is false. -/
theorem c8_empty_cart_matches_less_than :
    lessThanConds.cart_value_min = some 10 ∧ ((0:Int) < 10) ∧
    evaluateCartValueConditions lessThanConds [] = true := by
  decide

/-- C8 amended: on the empty cart, a rule with `cart_value_min > 0` never
matches under the operators that actually consult the minimum —
`greater_than` (as long as `cart_value`, if present, is nonnegative) and
`between`; `less_than` and `equals` can still match. -/
theorem c8_empty_cart_never_matches (conds : TriggerConditions) (m : Int)
    (hmin : conds.cart_value_min = some m) (hm : 0 < m)
    (hop : conds.cart_value_operator = some "greater_than" ∨
           conds.cart_value_operator = some "between")
    (hcv : ∀ v, conds.cart_value = some v → 0 ≤ v) :
    evaluateCartValueConditions conds [] = false := by
  have htot : cartTotal ([] : List CartItem) = 0 := rfl
  rcases hop with hop | hop
  · unfold evaluateCartValueConditions
    rw [hop]
    rcases hcv2 : conds.cart_value with _ | v
    · simp [jsOrInt, hcv2, hmin, jsGtOpt, htot]
      omega
    · have hv := hcv v hcv2
      by_cases hv0 : v = 0
      · subst hv0
        simp [jsOrInt, hcv2, hmin, jsGtOpt, htot]
        omega
      · simp [jsOrInt, hcv2, hv0, jsGtOpt, htot]
        omega
  · unfold evaluateCartValueConditions
    rw [hop]
    simp [jsGeOpt, hmin, htot]
    omega

/-- C8 witness: the empty cart does not match a `greater_than` rule whose
only bound is `cart_value_min = 50`. -/
theorem c8_witness :
    evaluateCartValueConditions greaterThanConds [] = false :=
  c8_empty_cart_never_matches greaterThanConds 50 rfl (by decide) (Or.inl rfl)
    (fun v h => by cases h)

/-- C9 counterexample: a present `time_on_site_max` of `0` is falsy in the
source's guard and is skipped, so a visitor with 100 seconds on site still
passes, while the claimed reading (a present threshold of `0` must hold)
rejects — "including when a present threshold has the value 0" is false. -/
theorem c9_zero_threshold_skipped :
    zeroMaxConds.time_on_site_max = some 0 ∧
    evaluateTimeConditions zeroMaxConds longVisit = true ∧
    timeSpecClaimed zeroMaxConds longVisit = false := by
  decide

/-- C9 amended: the time evaluator enforces exactly the thresholds that
are present AND nonzero (a `0` threshold is falsy and auto-satisfied, like
an absent one), AND-combined; a condition with no thresholds passes. -/
theorem c9_time_semantics (conds : TriggerConditions) (t : TimeContext) :
    (evaluateTimeConditions conds t = true ↔
      ((∀ v, conds.time_on_site_min = some v → v ≠ 0 → v ≤ jsNum t.timeOnSite 0) ∧
       (∀ v, conds.time_on_site_max = some v → v ≠ 0 → jsNum t.timeOnSite 0 ≤ v) ∧
       (∀ v, conds.active_time_on_site_min = some v → v ≠ 0 → v ≤ jsNum t.activeTimeOnSite 0))) ∧
    evaluateTimeConditions {} t = true := by
  constructor
  · rcases hmin : conds.time_on_site_min with _ | vmin <;>
    rcases hmax : conds.time_on_site_max with _ | vmax <;>
    rcases hamin : conds.active_time_on_site_min with _ | vamin <;>
      simp [evaluateTimeConditions, hmin, hmax, hamin] <;>
      omega
  · rfl

/-- C9 witness: with the only threshold being the falsy `time_on_site_max
= 0`, the amended semantics accepts the 100-second visit. -/
theorem c9_witness : evaluateTimeConditions zeroMaxConds longVisit = true :=
  (c9_time_semantics zeroMaxConds longVisit).1.mpr
    ⟨fun v hv _ => by simp [zeroMaxConds] at hv,
     fun v hv hne => by simp [zeroMaxConds] at hv; omega,
     fun v hv _ => by simp [zeroMaxConds] at hv⟩

/-- C10: a category condition with a (nonempty) category and no
`category_operator` gets the destructuring default `'contains'`: the rule
matches exactly when some cart item's extracted category equals the given
category; on the empty cart, `equals` and `not_contains` hold vacuously
while the defaulted `contains` is false. -/
theorem c10_default_operator_contains (conds : TriggerConditions) (items : List CartItem)
    (cat : String) (hcat : conds.category = some cat) (hne : cat ≠ "")
    (hop : conds.category_operator = none) :
    (evaluateCategoryConditions conds items
      = items.any (fun i => extractCategory i.title == cat)) ∧
    evaluateCategoryConditions { conds with category_operator := some "equals" } [] = true ∧
    evaluateCategoryConditions { conds with category_operator := some "not_contains" } [] = true ∧
    evaluateCategoryConditions conds [] = false := by
  refine ⟨?_, ?_, ?_, ?_⟩
  · simp only [evaluateCategoryConditions, hcat, hop, jsTruthyStr, hne]
    simp [hne]
    induction items with
    | nil => rfl
    | cons i is ih => simp [List.map_cons, List.any_cons, ih]
  · simp [evaluateCategoryConditions, hcat, jsTruthyStr, hne]
  · simp [evaluateCategoryConditions, hcat, jsTruthyStr, hne]
  · simp [evaluateCategoryConditions, hcat, hop, jsTruthyStr, hne]

/-- C10 witness: the item titled "Coffee Mug" extracts to category
`"coffee"`, so the operator-less coffee condition matches the demo cart. -/
theorem c10_witness :
    evaluateCategoryConditions coffeeConds demoCartP1
      = demoCartP1.any (fun i => extractCategory i.title == "coffee") :=
  (c10_default_operator_contains coffeeConds demoCartP1 "coffee" rfl (by decide) rfl).1
